import Mathlib

/-!
Verification of the node-pdf-processor core: the token-bucket rate limiter
(src/integration/documentIntegration.js), the job domain functions
(src/domain/jobManagement.js), the task processor (src/processor/taskProcessor.js),
the queue manager retry logic (src/queue/jobQueueManager.js) and the job
cancellation route (src/api/jobRoutes.js), shallowly embedded in Lean.

Conventions used throughout the embedding:
- JavaScript object fields that may be absent (undefined) are `Option` fields;
  `none` models an absent field.
- Timestamps are numbers: `Nat` milliseconds for the rate limiter
  (Date.now()), `ℚ` for job timestamps so that the fractional backoff delay
  (jitter is Math.random() * 1000) can be added to a schedule time.
- Impure inputs (Date.now(), Math.random(), generated ids, collaborator
  results) are explicit parameters.
- Code that throws returns `Except JsError`; a JS TypeError crash that the
  code itself never catches is modelled as `none` of an `Option` result.
-/

namespace NodePdfProcessor

/-- A JavaScript error value as the code observes it: an optional `message`
and an optional `code` property. -/
structure JsError where
  message : Option String := none
  code : Option String := none
  deriving DecidableEq

/-- Model of `String.prototype.includes` restricted to the checks the code
performs: `startsWithChars haystack needle` is true when `needle` is a prefix
of `haystack`. -/
def startsWithChars : List Char → List Char → Bool
  | _, [] => true
  | [], _ :: _ => false
  | c :: cs, d :: ds => (c == d) && startsWithChars cs ds

/-- The test `containsChars haystack needle` is true when `needle` occurs as
a contiguous substring of `haystack`. -/
def containsChars : List Char → List Char → Bool
  | [], sub => sub.isEmpty
  | c :: cs, sub => startsWithChars (c :: cs) sub || containsChars cs sub

/-- JavaScript `s.includes(sub)`. -/
def strIncludes (s sub : String) : Bool :=
  containsChars s.data sub.data

/-- JavaScript `o || d` for string-valued properties: `undefined` and the
empty string are falsy. -/
def jsOrDefault (o : Option String) (d : String) : String :=
  match o with
  | some s => if s = "" then d else s
  | none => d

/-- JavaScript string interpolation of a possibly-undefined string value. -/
def jsShow (o : Option String) : String :=
  match o with
  | some s => s
  | none => "undefined"

namespace RateLimiter

/-- State of the token-bucket `RateLimiter` class
(src/integration/documentIntegration.js lines 7-14): `maxTokens` is
`options.maxRequests || 10`, `refillRate` is `options.perTimeWindow || 60000`,
`tokens` starts at `maxTokens`, `lastRefill` starts at `Date.now()`. -/
structure LimiterState where
  maxTokens : Nat
  refillRate : Nat
  tokens : Nat
  lastRefill : Nat
  deriving DecidableEq

/-- The refill step at the top of `RateLimiter.execute`
(src/integration/documentIntegration.js lines 17-24): when time has elapsed
since `lastRefill`, add `floor(elapsed / refillRate) * maxTokens` tokens
capped at `maxTokens` and advance `lastRefill` to `now`. -/
def refillState (s : LimiterState) (now : Nat) : LimiterState :=
  if 0 < (now : Int) - (s.lastRefill : Int) then
    { s with
      tokens := min s.maxTokens (s.tokens +
        (((now : Int) - (s.lastRefill : Int)) / (s.refillRate : Int)).toNat * s.maxTokens),
      lastRefill := now }
  else s

/-- Outcome of one `execute` call: the resulting limiter state, whether the
wrapped function was invoked, and the wait-seconds value of the thrown
rate-limit error when it was not. -/
structure ExecResult where
  state : LimiterState
  invoked : Bool
  rateLimitError : Option Int
  deriving DecidableEq

/-- Method `execute` of the RateLimiter class
(src/integration/documentIntegration.js lines 16-36): refill, then either throw the rate-limit error without invoking the
operation (when fewer than one token remains) or consume a token and invoke
it. `waitTime` is `Math.ceil((refillRate - elapsed) / 1000)` computed against
the pre-refill `lastRefill`; the ceiling is encoded as
`floor((x + 999) / 1000)`, which agrees with it on every integer `x`. -/
def execute (s : LimiterState) (now : Nat) : ExecResult :=
  if (refillState s now).tokens < 1 then
    { state := refillState s now
      invoked := false
      rateLimitError :=
        some (((s.refillRate : Int) - ((now : Int) - (s.lastRefill : Int)) + 999) / 1000) }
  else
    { state := { refillState s now with tokens := (refillState s now).tokens - 1 }
      invoked := true
      rateLimitError := none }

/-- Folding `execute` over a list of call times. -/
def execSeq (s : LimiterState) : List Nat → LimiterState
  | [] => s
  | t :: ts => execSeq (execute s t).state ts

/-- Predicate `gapsOk rate last ts`: every call time in `ts` is less than one
refill window after the limiter's `lastRefill` at the moment of that call
(the limiter advances `lastRefill` to the later of the call time and the
previous `lastRefill`). -/
def gapsOk (rate : Nat) : Nat → List Nat → Bool
  | _, [] => true
  | last, t :: ts => (decide ((t : Int) - (last : Int) < (rate : Int))) && gapsOk rate (max last t) ts

end RateLimiter

/-- The dummy analysis object returned by the (simulated) Gemini call
(src/integration/documentIntegration.js `callGeminiForAnalysis`); the claims
never inspect its contents, only its presence. -/
structure GeminiAnalysis where
  summary : String
  deriving DecidableEq

/-- A fetched document (src/integration/documentIntegration.js
`fetchDocument`): the fields the pipeline reads. -/
structure Document where
  id : String
  url : String := ""
  content : String := ""
  format : String := ""
  size : Nat := 0
  deriving DecidableEq

/-- The `metadata` object built by `extractTextFromDocument` (Document
Processing Domain module, appended in src/src/api/jobRoutes.js lines
337-341): extraction time, character count of the extracted text, and the
document format defaulted to `unknown`. -/
structure DocMetadata where
  extractedAt : ℚ
  charCount : Nat
  format : String
  deriving DecidableEq

/-- The `analysis` object built by `analyzeDocument` (src/src/api/jobRoutes.js
lines 352-373): either the error object returned when the document has no
extracted text, or the simulated report whose sentiment, keywords and
confidence come from random draws. -/
inductive DocAnalysis where
  | failed (error : String) (status : String)
  | report (summary : String) (sentiment : String) (keywords : List String)
      (confidence : ℚ) (analyzedAt : ℚ)
  deriving DecidableEq

/-- The random draws `analyzeDocument` consumes (src/src/api/jobRoutes.js
lines 363-371): the sampled sentiment, the randomly filtered keyword list
and the rounded confidence value. -/
structure AnalysisDraws where
  sentiment : String
  keywords : List String
  confidence : ℚ
  deriving DecidableEq

/-- A document carrying extraction results: `extractTextFromDocument`
spreads the fetched document and adds `extractedText` and `metadata`
(src/src/api/jobRoutes.js lines 334-342); `analyzeDocument` later adds
`analysis`, and the taskProcessor may attach `geminiAnalysis` before the
analysis step. -/
structure DocWithText where
  id : String
  url : String := ""
  content : String := ""
  format : String := ""
  size : Nat := 0
  extractedText : String
  metadata : DocMetadata
  geminiAnalysis : Option GeminiAnalysis := none
  analysis : Option DocAnalysis := none
  deriving DecidableEq

/-- Function `extractTextFromDocument` (Document Processing Domain module,
appended in src/src/api/jobRoutes.js lines 325-343): when the content is
truthy the extracted text is
`Simulated extraction from ${content.substring(0, 30)}...`, otherwise the
explicit unavailable message; the result spreads the document and adds the
text and metadata (`format: document.format || 'unknown'`). The clock is an
explicit parameter. -/
def extractTextFromDocument (now : ℚ) (document : Document) : DocWithText :=
  { id := document.id
    url := document.url
    content := document.content
    format := document.format
    size := document.size
    extractedText :=
      if document.content = "" then "No content available for extraction"
      else "Simulated extraction from " ++ document.content.take 30 ++ "..."
    metadata :=
      { extractedAt := now
        charCount :=
          (if document.content = "" then "No content available for extraction"
           else "Simulated extraction from " ++ document.content.take 30 ++ "...").length
        format := if document.format = "" then "unknown" else document.format } }

/-- Function `analyzeDocument` (src/src/api/jobRoutes.js lines 350-380):
a falsy `extractedText` yields the error-object analysis; otherwise the
simulated report is built from `metadata.format || 'unknown'` and the random
draws. Either way the input object is spread and `analysis` added. -/
def analyzeDocument (draws : AnalysisDraws) (now : ℚ) (documentWithText : DocWithText) :
    DocWithText :=
  if documentWithText.extractedText = "" then
    { documentWithText with
      analysis := some (.failed "No extracted text available for analysis" "failed") }
  else
    { documentWithText with
      analysis := some (.report
        ("This document appears to be about " ++
          (if documentWithText.metadata.format = "" then "unknown"
           else documentWithText.metadata.format) ++ " processing.")
        draws.sentiment draws.keywords draws.confidence now) }

/-- The `result` object assembled by `processPdfJob`
(src/processor/taskProcessor.js lines 107-116). It is built as a fresh object
literal with exactly the keys `documentId`, `extractedText`, `analysis`,
`processedAt`; the `geminiAnalysis` field records whether the literal also
carries a Gemini insight key, which it never does. -/
structure PdfResult where
  documentId : String
  extractedText : String
  analysis : Option DocAnalysis
  geminiAnalysis : Option GeminiAnalysis
  processedAt : ℚ
  deriving DecidableEq

/-- The structured error attached to a job by `processJob`'s failure handler
(src/processor/taskProcessor.js lines 51-59). -/
structure JobError where
  message : Option String
  code : String
  isTransient : Bool
  timestamp : ℚ
  deriving DecidableEq

/-- The cancellation audit metadata attached by the DELETE route
(src/api/jobRoutes.js lines 204-211). -/
structure CancellationInfo where
  cancelledAt : ℚ
  cancelledBy : String
  reason : String
  deriving DecidableEq

/-- A job object. JavaScript jobs are plain object literals whose fields
appear and disappear; every field the core reads or writes is an `Option`
field, `none` meaning the property is absent. -/
structure Job where
  id : Option String := none
  type : Option String := none
  status : Option String := none
  documentUrl : Option String := none
  analyzeContent : Option Bool := none
  retries : Option Nat := none
  maxRetries : Option Nat := none
  scheduledFor : Option ℚ := none
  queuedAt : Option ℚ := none
  lastError : Option String := none
  createdAt : Option ℚ := none
  updatedAt : Option ℚ := none
  error : Option JobError := none
  result : Option PdfResult := none
  cancellation : Option CancellationInfo := none
  deriving DecidableEq

/-- The empty job object `{}`. -/
def emptyJob : Job := {}

/-- JavaScript object spread: a property present on `override` wins over the
same property of `base`. -/
def jsOverride {α : Type} (override base : Option α) : Option α :=
  match override with
  | some v => some v
  | none => base

/-- Field-by-field spread `{...base, ...override}` of two job objects. -/
def mergeJob (base override : Job) : Job :=
  { id := jsOverride override.id base.id
    type := jsOverride override.type base.type
    status := jsOverride override.status base.status
    documentUrl := jsOverride override.documentUrl base.documentUrl
    analyzeContent := jsOverride override.analyzeContent base.analyzeContent
    retries := jsOverride override.retries base.retries
    maxRetries := jsOverride override.maxRetries base.maxRetries
    scheduledFor := jsOverride override.scheduledFor base.scheduledFor
    queuedAt := jsOverride override.queuedAt base.queuedAt
    lastError := jsOverride override.lastError base.lastError
    createdAt := jsOverride override.createdAt base.createdAt
    updatedAt := jsOverride override.updatedAt base.updatedAt
    error := jsOverride override.error base.error
    result := jsOverride override.result base.result
    cancellation := jsOverride override.cancellation base.cancellation }

/-- Function `createJob` (src/domain/jobManagement.js lines 23-31):
`{id: generateId(), status: 'pending', createdAt: now, updatedAt: now,
...jobData}` — note that `jobData` is spread AFTER the defaults. The
generated id and the clock are explicit parameters. -/
def createJob (freshId : String) (now : ℚ) (jobData : Job) : Job :=
  mergeJob
    { id := some freshId, status := some "pending",
      createdAt := some now, updatedAt := some now }
    jobData

/-- Function `updateJobStatus` (src/domain/jobManagement.js lines 39-45):
`{...job, status: newStatus, updatedAt: now}`. -/
def updateJobStatus (job : Job) (newStatus : String) (now : ℚ) : Job :=
  { job with status := some newStatus, updatedAt := some now }

/-- Function `isTransientError` (src/processor/taskProcessor.js lines
124-140). Returns `none` when the JavaScript function itself throws: the
final clause `error.message.includes('timeout')` is reached whenever the
message did not match the rate-limit signature and the code matched none of
the three network codes, and it throws a TypeError when `error.message` is
undefined. -/
def isTransientError (error : JsError) : Option Bool :=
  let rateLimitHit : Bool :=
    match error.message with
    | some m => (m != "") && strIncludes m "Rate limit exceeded"
    | none => false
  if rateLimitHit then some true
  else if error.code = some "ETIMEDOUT" ∨ error.code = some "ECONNRESET" ∨
      error.code = some "ECONNREFUSED" then some true
  else
    match error.message with
    | some m => some (strIncludes m "timeout")
    | none => none

/-- The outcomes of one `processJob` call. `saved` lists the job snapshots
passed to `saveJob`/`notifyJobStatusChange`, in order. `failure` carries the
re-thrown error and the snapshot recorded by the catch block; `handlerCrash`
is the case where the catch block itself threw inside `isTransientError`, so
no failure status was recorded. -/
inductive ProcessOutcome where
  | completed (finalJob : Job) (saved : List Job)
  | failure (rethrown : JsError) (recordedJob : Job) (saved : List Job)
  | handlerCrash (rethrown : JsError) (saved : List Job)
  deriving DecidableEq

/-- The job snapshot built by `processJob`'s catch block
(src/processor/taskProcessor.js lines 50-59): status `retry` or `failed` by
transience, plus the structured error object. Built from the original `job`
argument, not from the in-flight updated job. -/
def recordFailedJob (job : Job) (err : JsError) (isTr : Bool) (now : ℚ) : Job :=
  { updateJobStatus job (if isTr then "retry" else "failed") now with
    error := some { message := err.message,
                    code := jsOrDefault err.code "UNKNOWN_ERROR",
                    isTransient := isTr,
                    timestamp := now } }

/-- The collaborator outcomes visible to one pipeline run: what
`fetchDocument` and `callGeminiForAnalysis` (the Gemini call through the
rate limiter) would produce. -/
structure PipelineEnv where
  fetchResult : Except JsError Document
  geminiResult : Except JsError GeminiAnalysis

/-- Steps 2 and 3 of `processPdfJob` (src/processor/taskProcessor.js lines
83-105): extract text, then — unless `job.analyzeContent === false` —
analyze. The Gemini result is attached to the document before the pure
`analyzeDocument`; a Gemini failure is caught and the code continues with
`analyzeDocument(documentWithText)` alone. -/
def pdfProcessedDocument (env : PipelineEnv) (draws : AnalysisDraws)
    (now : ℚ) (job : Job) (document : Document) : DocWithText :=
  if job.analyzeContent ≠ some false then
    match env.geminiResult with
    | .ok analysisResult =>
        analyzeDocument draws now
          { extractTextFromDocument now document with
            geminiAnalysis := some analysisResult }
    | .error _ =>
        analyzeDocument draws now (extractTextFromDocument now document)
  else extractTextFromDocument now document

/-- Steps 1 and 4 of `processPdfJob`: reject a missing/empty `documentUrl`,
fetch, and assemble the result object literal from the processed document
(the `let documentWithText`/`let processedDocument` of the source are the
helper above). -/
def processPdfJob (env : PipelineEnv) (draws : AnalysisDraws)
    (now : ℚ) (job : Job) : Except JsError Job :=
  if job.documentUrl = none ∨ job.documentUrl = some "" then
    .error { message := some "Missing documentUrl for PDF processing job" }
  else
    match env.fetchResult with
    | .error e => .error e
    | .ok document =>
        .ok { job with result := some {
            documentId := document.id,
            extractedText := (pdfProcessedDocument env draws now job document).extractedText,
            analysis := (pdfProcessedDocument env draws now job document).analysis,
            geminiAnalysis := none,
            processedAt := now } }

/-- The per-type dispatch inside `processJob`'s try block
(src/processor/taskProcessor.js lines 26-32): the switch runs on the original
`job.type` and hands the in-flight (`processing`) snapshot to
`processPdfJob`; any other type throws
`new Error('Unsupported job type: ...')`. -/
def runPipeline (env : PipelineEnv) (draws : AnalysisDraws)
    (now : ℚ) (job : Job) : Except JsError Job :=
  match job.type with
  | some "pdf-processing" =>
      processPdfJob env draws now (updateJobStatus job "processing" now)
  | _ => .error { message := some ("Unsupported job type: " ++ jsShow job.type) }

/-- Function `processJob` (src/processor/taskProcessor.js lines 16-67):
record the `processing` snapshot, run the pipeline, record `completed` on
success; on a pipeline error classify it with `isTransientError`, record the
`retry`/`failed` snapshot with the structured error and re-throw. When
`isTransientError` itself throws, the catch block dies before recording
anything further. -/
def processJob (env : PipelineEnv) (draws : AnalysisDraws)
    (now : ℚ) (job : Job) : ProcessOutcome :=
  match runPipeline env draws now job with
  | .ok processed =>
      .completed (updateJobStatus processed "completed" now)
        [updateJobStatus job "processing" now, updateJobStatus processed "completed" now]
  | .error err =>
      match isTransientError err with
      | none => .handlerCrash err [updateJobStatus job "processing" now]
      | some isTr =>
          .failure err (recordFailedJob job err isTr now)
            [updateJobStatus job "processing" now, recordFailedJob job err isTr now]

/-- The recorded-failure snapshot of an outcome (the `completed` job or the
catch-block snapshot; a crash recorded nothing beyond `processing`). -/
def ProcessOutcome.recordedJob : ProcessOutcome → Job
  | .completed j _ => j
  | .failure _ r _ => r
  | .handlerCrash _ _ => {}

/-- The error a failing outcome re-threw. -/
def ProcessOutcome.rethrownError : ProcessOutcome → JsError
  | .completed _ _ => {}
  | .failure e _ _ => e
  | .handlerCrash e _ => e

/-- The snapshots an outcome persisted, in order. -/
def ProcessOutcome.savedJobs : ProcessOutcome → List Job
  | .completed _ s => s
  | .failure _ _ s => s
  | .handlerCrash _ s => s

/-- The effective retry cap `nextJob.maxRetries || 3`
(src/queue/jobQueueManager.js line 94); 0 and undefined are falsy. -/
def jsMaxRetries (job : Job) : Nat :=
  match job.maxRetries with
  | some m => if m = 0 then 3 else m
  | none => 3

/-- Function `addJob` (src/queue/jobQueueManager.js lines 45-61): reject a
job without an id (undefined and the empty string are falsy), otherwise
enqueue `{...job, queuedAt: now, scheduledFor: job.scheduledFor || now}`. -/
def addJob (job : Job) (now : ℚ) : Except JsError Job :=
  match job.id with
  | none => .error { message := some "Invalid job: must have an id property" }
  | some i =>
      if i = "" then .error { message := some "Invalid job: must have an id property" }
      else .ok { job with
        queuedAt := some now,
        scheduledFor := some (match job.scheduledFor with | some t => t | none => now) }

/-- Function `calculateBackoff` (src/queue/jobQueueManager.js lines 120-131):
`min(60000, 2^retryCount * 1000 + Math.random() * 1000)`; the jitter draw is
an explicit parameter. -/
def calculateBackoff (retryCount : Nat) (jitter : ℚ) : ℚ :=
  min 60000 (2 ^ retryCount * 1000 + jitter)

/-- The catch block of `processNextJob` (src/queue/jobQueueManager.js lines
90-108): when `taskProcessor` threw, re-add the job only when
`nextJob.retries < (nextJob.maxRetries || 3)` — in JavaScript this comparison
is false when `retries` is undefined — with `retries` set to
`(nextJob.retries || 0) + 1`, `scheduledFor` set to now plus the backoff
delay for `(nextJob.retries || 0)`, and `lastError` set to the error
message. Returns `.ok (some q)` when the job was re-enqueued as `q`,
`.ok none` when it was dropped, `.error` when the inner `addJob` threw. -/
def requeueOnFailure (nextJob : Job) (err : JsError) (now : ℚ) (jitter : ℚ) :
    Except JsError (Option Job) :=
  let shouldRetry : Bool :=
    match nextJob.retries with
    | some r => decide (r < jsMaxRetries nextJob)
    | none => false
  if shouldRetry then
    let retryDelay := calculateBackoff (nextJob.retries.getD 0) jitter
    match addJob { nextJob with
        retries := some (nextJob.retries.getD 0 + 1),
        scheduledFor := some (now + retryDelay),
        lastError := err.message } now with
    | .ok q => .ok (some q)
    | .error e => .error e
  else .ok none

/-- In-memory job store of the routes module (src/api/jobRoutes.js line 13),
a Map from job id to job, as an association list. -/
def lookupJob : List (String × Job) → String → Option Job
  | [], _ => none
  | (k, v) :: rest, jobId => if k = jobId then some v else lookupJob rest jobId

/-- Map.set on the association list: replace the binding when present,
append otherwise. -/
def setJob : List (String × Job) → String → Job → List (String × Job)
  | [], jobId, j => [(jobId, j)]
  | (k, v) :: rest, jobId, j =>
      if k = jobId then (jobId, j) :: rest else (k, v) :: setJob rest jobId j

/-- The three responses of the DELETE route: 404 when the job does not
exist, 400 (conflict) when its status is not `pending`, 200 on success. -/
inductive CancelOutcome where
  | notFound
  | conflict (currentStatus : Option String)
  | cancelled (cancelledAt : ℚ)
  deriving DecidableEq

/-- Route handler DELETE /api/v1/jobs/:jobId (src/api/jobRoutes.js lines
179-236). `findJobById` consults the Firebase stub, which always returns
null (src/integration/jobIntegration.js line 75), and falls back to the
in-memory store. A job whose status is not exactly `pending` is rejected
with a 400 before anything is written; otherwise the job is re-recorded as
`cancelled` with cancellation metadata (`req.user?.id || 'unknown'`,
`req.body.reason || 'User cancelled'`). Returns the store after the call and
the response. -/
def cancelJobHandler (store : List (String × Job)) (jobId : String)
    (userId : Option String) (reason : Option String) (now : ℚ) :
    List (String × Job) × CancelOutcome :=
  match lookupJob store jobId with
  | none => (store, .notFound)
  | some job =>
      if job.status ≠ some "pending" then (store, .conflict job.status)
      else
        let cancelledJob := updateJobStatus job "cancelled" now
        let jobWithCancellationInfo :=
          { cancelledJob with cancellation := some {
              cancelledAt := now,
              cancelledBy := jsOrDefault userId "unknown",
              reason := jsOrDefault reason "User cancelled" } }
        (setJob store jobId jobWithCancellationInfo, .cancelled now)

deriving instance DecidableEq for Except

/-! Concrete jobs, errors and environments used to instantiate the theorems
below. -/

/-- A job at its retry cap: three retries performed, three allowed. -/
def jobAtCap : Job :=
  { id := some "j1"
    type := some "pdf-processing"
    documentUrl := some "gs://bucket/file.pdf"
    retries := some 3
    maxRetries := some 3 }

/-- A transient fetch failure (its message matches the timeout signature). -/
def errTimeout : JsError := { message := some "Connection timeout" }

/-- An environment in which the fetch collaborator fails transiently. -/
def envFetchTimeout : PipelineEnv :=
  { fetchResult := .error errTimeout, geminiResult := .error errTimeout }

/-- A fixed outcome of the analysis-stage random draws, used to instantiate
the theorems at concrete inputs. -/
def drawsNeutral : AnalysisDraws := { sentiment := "neutral", keywords := [], confidence := 0 }

/-- The outcome of processing the capped job against the failing fetch. -/
def outAtCap : ProcessOutcome :=
  processJob envFetchTimeout drawsNeutral 0 jobAtCap

/-- A first-time job: no `retries` property at all, as every job created
through `createJob` and submitted over the API. -/
def jobFirstFailure : Job := { id := some "j1", type := some "pdf-processing" }

/-- The unsupported-type submission of the spec scenario. -/
def jobJ2 : Job := { id := some "j2", type := some "unknown-type" }

/-- The error `processJob` throws for the unsupported-type submission. -/
def errJ2 : JsError := { message := some "Unsupported job type: unknown-type" }

/-- An error value with an unrecognized code and no message property. -/
def errNoMessage : JsError := { code := some "EACCES" }

/-- A well-formed pdf job used to drive the classifier crash. -/
def jobClassifier : Job :=
  { id := some "j9", type := some "pdf-processing", documentUrl := some "gs://bucket/file.pdf" }

/-- An environment whose fetch collaborator throws the message-less error. -/
def envNoMessage : PipelineEnv :=
  { fetchResult := .error errNoMessage, geminiResult := .error errNoMessage }

/-- A pdf job for the degraded-analysis scenario. -/
def jobDegraded : Job :=
  { id := some "j5", type := some "pdf-processing", documentUrl := some "gs://bucket/doc.pdf" }

/-- The document the fetch stage returns in that scenario. -/
def docDegraded : Document := { id := "doc", content := "hello world" }

/-- The rate-limit error thrown by the Gemini call through the limiter. -/
def errRateLimit : JsError :=
  { message := some "Rate limit exceeded. Try again in 60 seconds." }

/-- An environment where fetch succeeds and analysis is rate-limited. -/
def envDegraded : PipelineEnv :=
  { fetchResult := .ok docDegraded, geminiResult := .error errRateLimit }

/-- A stored job already being processed. -/
def processingStoredJob : Job := { id := some "jc", status := some "processing" }

/-- A store holding only that job. -/
def storeProcessing : List (String × Job) := [("jc", processingStoredJob)]

/-- A submission payload carrying its own id and status. -/
def jobDataOverriding : Job := { id := some "custom-id", status := some "completed" }

/-- A limiter with an empty bucket refilled at time 0. -/
def limiterEmpty : RateLimiter.LimiterState :=
  { maxTokens := 5, refillRate := 60000, tokens := 0, lastRefill := 0 }

/-- A full limiter used for the starvation sequence. -/
def limiterFull : RateLimiter.LimiterState :=
  { maxTokens := 5, refillRate := 60000, tokens := 5, lastRefill := 0 }

/-! The claims. -/

/-- C3: the claim promises that a failing job is re-enqueued with `retries`
incremented whenever its retries count is below `maxRetries`, for every job
including one carrying no `retries` field. The code violates this: the guard
`nextJob.retries < (nextJob.maxRetries || 3)` is false in JavaScript when
`retries` is undefined, so a first-time failure is dropped even though its
effective retry count 0 is below the cap of 3 — while the same catch block
evaluates `(nextJob.retries || 0) + 1`, showing the absent field was meant to
count as 0. This theorem evaluates the code at the failing input. -/
theorem first_failure_never_requeued (err : JsError) (now jitter : ℚ) :
    requeueOnFailure jobFirstFailure err now jitter = .ok none ∧
    jobFirstFailure.retries.getD 0 < jsMaxRetries jobFirstFailure :=
  ⟨rfl, by decide⟩

/-- C4: submitting `{id: "j2", type: "unknown-type"}` fails immediately and
permanently: `processJob` records status `failed` (not `retry`), the job
still carries no retries (effective count 0), and the queue manager's
failure handler does not re-enqueue it. -/
theorem unsupported_type_fails_permanently
    (env : PipelineEnv) (draws : AnalysisDraws) (now qnow renow jitter : ℚ) :
    processJob env draws now jobJ2 =
      .failure errJ2 (recordFailedJob jobJ2 errJ2 false now)
        [updateJobStatus jobJ2 "processing" now, recordFailedJob jobJ2 errJ2 false now] ∧
    (recordFailedJob jobJ2 errJ2 false now).status = some "failed" ∧
    (recordFailedJob jobJ2 errJ2 false now).retries = none ∧
    (recordFailedJob jobJ2 errJ2 false now).retries.getD 0 = 0 ∧
    requeueOnFailure { jobJ2 with queuedAt := some qnow, scheduledFor := some qnow }
      errJ2 renow jitter = .ok none :=
  ⟨rfl, rfl, rfl, rfl, rfl⟩

/-- C7 (amended): the backoff delay equals
`min(60000, 2^n * 1000 + jitter)`; it never exceeds 60000 ms, and it lies in
`[2^n * 1000, 2^n * 1000 + 1000]` only while the exponential term is below
the cap (`n ≤ 5`); for `n ≥ 6` the delay equals the cap 60000, which is
below `2^n * 1000`. -/
theorem calculateBackoff_bounds (n : Nat) (j : ℚ) (h0 : 0 ≤ j) (h1 : j < 1000) :
    calculateBackoff n j = min 60000 (2 ^ n * 1000 + j) ∧
    calculateBackoff n j ≤ 60000 ∧
    (n ≤ 5 → 2 ^ n * 1000 ≤ calculateBackoff n j ∧
      calculateBackoff n j ≤ 2 ^ n * 1000 + 1000) ∧
    (6 ≤ n → calculateBackoff n j = 60000) := by
  refine ⟨rfl, by rw [calculateBackoff]; exact min_le_left _ _, fun hn => ?_, fun hn => ?_⟩
  · have h2 : (2 : ℚ) ^ n ≤ 2 ^ 5 := pow_le_pow_right₀ (by norm_num) hn
    constructor
    · rw [calculateBackoff, min_def]
      split
      · nlinarith
      · linarith
    · rw [calculateBackoff]
      calc min (60000 : ℚ) (2 ^ n * 1000 + j) ≤ 2 ^ n * 1000 + j := min_le_right _ _
        _ ≤ 2 ^ n * 1000 + 1000 := by linarith
  · have h2 : (2 : ℚ) ^ 6 ≤ 2 ^ n := pow_le_pow_right₀ (by norm_num) hn
    rw [calculateBackoff, min_eq_left]
    nlinarith

/-- Witness for C7 at `n = 2`, `jitter = 500`. -/
theorem calculateBackoff_bounds_witness :
    calculateBackoff 2 500 ≤ 60000 ∧ 2 ^ 2 * 1000 ≤ calculateBackoff 2 500 :=
  ⟨(calculateBackoff_bounds 2 500 (by norm_num) (by norm_num)).2.1,
   ((calculateBackoff_bounds 2 500 (by norm_num) (by norm_num)).2.2.1 (by norm_num)).1⟩

/-- Counterexample for C7 as stated: at `n = 6` with jitter 0 the delay is
the cap 60000, which is strictly below the claimed lower bound
`2^6 * 1000 = 64000`. -/
theorem calculateBackoff_cap_below_claimed_bound :
    (0 : ℚ) ≤ 0 ∧ (0 : ℚ) < 1000 ∧ calculateBackoff 6 0 = 60000 ∧
    ¬ (2 ^ 6 * 1000 ≤ calculateBackoff 6 0) := by
  refine ⟨le_refl _, by norm_num, ?_, ?_⟩ <;> rw [calculateBackoff] <;> rw [min_def] <;> norm_num

/-- C8 (amended): `createJob` assigns the fresh id and the `pending` status
only when the submission payload itself carries no `id`/`status` fields;
because the payload is spread after the defaults, payload fields override
the generated ones. -/
theorem createJob_fresh_when_absent (freshId : String) (now : ℚ) (jobData : Job)
    (hid : jobData.id = none) (hst : jobData.status = none) :
    (createJob freshId now jobData).id = some freshId ∧
    (createJob freshId now jobData).status = some "pending" := by
  simp [createJob, mergeJob, jsOverride, hid, hst]

/-- Witness for C8 with an empty payload. -/
theorem createJob_fresh_when_absent_witness :
    (createJob "fresh-1" 0 emptyJob).id = some "fresh-1" ∧
    (createJob "fresh-1" 0 emptyJob).status = some "pending" :=
  createJob_fresh_when_absent "fresh-1" 0 emptyJob rfl rfl

/-- Counterexample for C8 as stated: a payload carrying `id` and `status`
overrides both the generated id and the initial `pending` status. -/
theorem createJob_overridden_by_payload :
    (createJob "fresh-id" 0 jobDataOverriding).id = some "custom-id" ∧
    (createJob "fresh-id" 0 jobDataOverriding).status = some "completed" ∧
    (createJob "fresh-id" 0 jobDataOverriding).id ≠ some "fresh-id" ∧
    (createJob "fresh-id" 0 jobDataOverriding).status ≠ some "pending" := by
  refine ⟨rfl, rfl, by decide, by decide⟩

/-- C9: the failure classifier is not total. For an error with an
unrecognized code and no `message` property, `isTransientError` itself
throws (modelled as `none`) instead of returning false, so `processJob`'s
catch block dies after having recorded only the `processing` snapshot: no
`failed`/`retry` status and no structured error are recorded. -/
theorem classifier_crash_skips_failure_record :
    isTransientError errNoMessage = none ∧
    errNoMessage.message = none ∧
    errNoMessage.code ≠ some "ETIMEDOUT" ∧
    errNoMessage.code ≠ some "ECONNRESET" ∧
    errNoMessage.code ≠ some "ECONNREFUSED" ∧
    (∀ draws : AnalysisDraws, ∀ now : ℚ,
      processJob envNoMessage draws now jobClassifier =
        .handlerCrash errNoMessage [updateJobStatus jobClassifier "processing" now]) :=
  ⟨rfl, rfl, by decide, by decide, by decide, fun _ _ => rfl⟩

/-- C1 (amended): the status `processJob` records on a pipeline failure
depends only on `isTransientError`: every transient failure is recorded as
`retry`, even for a job whose `retries` already equals its `maxRetries`.
The retries/maxRetries comparison is made only by the queue manager, which
declines to re-enqueue; the last recorded status stays `retry`, never
`failed`, for a transient failure at the cap. -/
theorem transient_failure_at_cap_records_retry
    (env : PipelineEnv) (draws : AnalysisDraws) (now : ℚ) (job : Job) (n : Nat)
    (hr : job.retries = some n) (hm : job.maxRetries = some n)
    (e : JsError) (rec : Job) (saved : List Job)
    (hp : processJob env draws now job = .failure e rec saved)
    (ht : isTransientError e = some true) :
    rec.status = some "retry" := by
  unfold processJob at hp
  cases h1 : runPipeline env draws now job with
  | ok processed =>
      rw [h1] at hp
      exact absurd hp (by simp)
  | error err =>
      rw [h1] at hp
      have hp1 : (match isTransientError err with
          | none => ProcessOutcome.handlerCrash err [updateJobStatus job "processing" now]
          | some isTr =>
              ProcessOutcome.failure err (recordFailedJob job err isTr now)
                [updateJobStatus job "processing" now, recordFailedJob job err isTr now]) =
          ProcessOutcome.failure e rec saved := hp
      cases h2 : isTransientError err with
      | none =>
          rw [h2] at hp1
          exact absurd hp1 (by simp)
      | some isTr =>
          rw [h2] at hp1
          have hp2 : ProcessOutcome.failure err (recordFailedJob job err isTr now)
              [updateJobStatus job "processing" now, recordFailedJob job err isTr now] =
              .failure e rec saved := hp1
          injection hp2 with h_e h_rec h_saved
          subst h_e
          rw [ht] at h2
          injection h2 with h_tr
          subst h_tr
          rw [← h_rec]
          rfl

/-- Witness for C1 (amended): the capped job with a transient fetch failure
is recorded as `retry`. -/
theorem transient_failure_at_cap_records_retry_witness :
    outAtCap.recordedJob.status = some "retry" :=
  transient_failure_at_cap_records_retry envFetchTimeout drawsNeutral 0 jobAtCap 3 rfl rfl
    outAtCap.rethrownError outAtCap.recordedJob outAtCap.savedJobs rfl (by decide)

/-- Counterexample for C1 as stated: a job with `retries = maxRetries = 3`
failing transiently has recorded status `retry`, not `failed`. -/
theorem transient_failure_at_cap_not_failed :
    jobAtCap.retries = some 3 ∧ jobAtCap.maxRetries = some 3 ∧
    isTransientError outAtCap.rethrownError = some true ∧
    outAtCap.recordedJob.status = some "retry" ∧
    outAtCap.recordedJob.status ≠ some "failed" := by
  refine ⟨rfl, rfl, by decide, by decide, by decide⟩

/-- Helper: `analyzeDocument` spreads its input, so the extracted text
survives the analysis step unchanged in both branches. -/
theorem analyzeDocument_extractedText (draws : AnalysisDraws) (now : ℚ) (d : DocWithText) :
    (analyzeDocument draws now d).extractedText = d.extractedText := by
  rw [analyzeDocument]
  split <;> rfl

/-- C5: when the Gemini analysis call fails — with the rate-limit error or
any other error — `processPdfJob` still succeeds: the error is swallowed
inside the stage, the returned job's `result` carries the extracted text and
the locally simulated analysis of the un-enriched document, and the result
object literal has no Gemini insight field. -/
theorem analysis_failure_degrades_gracefully
    (env : PipelineEnv) (draws : AnalysisDraws)
    (now : ℚ) (job : Job) (url : String)
    (doc : Document) (gerr : JsError)
    (hurl : job.documentUrl = some url) (hne : url ≠ "")
    (hfetch : env.fetchResult = .ok doc)
    (han : job.analyzeContent ≠ some false)
    (hgem : env.geminiResult = .error gerr) :
    processPdfJob env draws now job =
      .ok { job with result := some {
        documentId := doc.id,
        extractedText := (extractTextFromDocument now doc).extractedText,
        analysis := (analyzeDocument draws now (extractTextFromDocument now doc)).analysis,
        geminiAnalysis := none,
        processedAt := now } } := by
  rw [processPdfJob, hfetch]
  rw [if_neg (by simp [hurl, hne])]
  simp only [pdfProcessedDocument]
  rw [if_pos han, hgem]
  dsimp only
  rw [analyzeDocument_extractedText]

set_option maxRecDepth 4000 in
/-- Witness for C5: a concrete pdf job whose analysis is rate-limited still
completes, its result holding the simulated extraction text and the local
report with no Gemini field. -/
theorem analysis_failure_degrades_gracefully_witness :
    processPdfJob envDegraded drawsNeutral 0 jobDegraded =
      .ok { jobDegraded with result := some {
        documentId := "doc",
        extractedText := "Simulated extraction from hello world...",
        analysis := some (.report "This document appears to be about unknown processing."
          "neutral" [] 0 0),
        geminiAnalysis := none,
        processedAt := 0 } } :=
  analysis_failure_degrades_gracefully
    envDegraded drawsNeutral 0 jobDegraded "gs://bucket/doc.pdf" docDegraded errRateLimit
    rfl (by decide) rfl (by decide) rfl

/-- C6: cancelling a stored job whose status is not `pending` fails with the
conflict response and leaves the store — hence the job and all its fields —
unchanged; and a successful cancellation only ever happens to a job whose
status was `pending`. -/
theorem cancel_only_from_pending :
    (∀ store jobId userId reason (now : ℚ) job,
      lookupJob store jobId = some job →
      job.status ≠ some "pending" →
      cancelJobHandler store jobId userId reason now =
        (store, CancelOutcome.conflict job.status)) ∧
    (∀ store jobId userId reason (now : ℚ) st t,
      cancelJobHandler store jobId userId reason now = (st, CancelOutcome.cancelled t) →
      ∃ job, lookupJob store jobId = some job ∧ job.status = some "pending") := by
  constructor
  · intro store jobId u r now job hl hs
    rw [cancelJobHandler, hl]
    simp [hs]
  · intro store jobId u r now st t h
    rw [cancelJobHandler] at h
    cases hl : lookupJob store jobId with
    | none => rw [hl] at h; simp at h
    | some job =>
        rw [hl] at h
        by_cases hs : job.status = some "pending"
        · exact ⟨job, rfl, hs⟩
        · simp [hs] at h

/-- Witness for C6: cancelling the `processing` job is rejected with the
conflict response and the store is unchanged. -/
theorem cancel_only_from_pending_witness :
    cancelJobHandler storeProcessing "jc" none none 0 =
      (storeProcessing, CancelOutcome.conflict (some "processing")) :=
  cancel_only_from_pending.1 storeProcessing "jc" none none 0 processingStoredJob
    rfl (by decide)

/-- Helper: a refill never changes the window length. -/
theorem refillState_refillRate (s : RateLimiter.LimiterState) (t : Nat) :
    (RateLimiter.refillState s t).refillRate = s.refillRate := by
  rw [RateLimiter.refillState]
  split <;> rfl

/-- Helper: an `execute` call never changes the window length. -/
theorem execute_refillRate (s : RateLimiter.LimiterState) (t : Nat) :
    (RateLimiter.execute s t).state.refillRate = s.refillRate := by
  rw [RateLimiter.execute]
  split
  · exact refillState_refillRate s t
  · exact refillState_refillRate s t

/-- Helper: a refill moves `lastRefill` to the later of the old value and
the call time (it advances exactly when time has elapsed). -/
theorem refillState_lastRefill (s : RateLimiter.LimiterState) (t : Nat) :
    (RateLimiter.refillState s t).lastRefill = max s.lastRefill t := by
  rw [RateLimiter.refillState]
  by_cases h : (0 : Int) < (t : Int) - (s.lastRefill : Int)
  · rw [if_pos h]
    have ht : s.lastRefill < t := by omega
    simp only
    omega
  · rw [if_neg h]
    have ht : t ≤ s.lastRefill := by omega
    omega

/-- Helper: an `execute` call moves `lastRefill` to the later of the old
value and the call time. -/
theorem execute_lastRefill (s : RateLimiter.LimiterState) (t : Nat) :
    (RateLimiter.execute s t).state.lastRefill = max s.lastRefill t := by
  rw [RateLimiter.execute]
  split
  · exact refillState_lastRefill s t
  · exact refillState_lastRefill s t

/-- Helper: a call made less than one refill window after `lastRefill` adds
no tokens, so the token count cannot increase across it. -/
theorem execute_tokens_mono (s : RateLimiter.LimiterState) (t : Nat)
    (h : (t : Int) - (s.lastRefill : Int) < (s.refillRate : Int)) :
    (RateLimiter.execute s t).state.tokens ≤ s.tokens := by
  have hrf : (RateLimiter.refillState s t).tokens ≤ s.tokens := by
    rw [RateLimiter.refillState]
    by_cases hel : (0 : Int) < (t : Int) - (s.lastRefill : Int)
    · rw [if_pos hel]
      have hdiv : ((t : Int) - (s.lastRefill : Int)) / (s.refillRate : Int) = 0 :=
        Int.ediv_eq_zero_of_lt (le_of_lt hel) h
      simp only [hdiv]
      simp
    · rw [if_neg hel]
  rw [RateLimiter.execute]
  split
  · exact hrf
  · exact le_trans (Nat.sub_le _ _) hrf

/-- Helper: across a whole sequence of calls each made less than one window
after the limiter's current `lastRefill`, the token count never increases. -/
theorem execSeq_tokens_mono (s : RateLimiter.LimiterState) (ts : List Nat)
    (h : RateLimiter.gapsOk s.refillRate s.lastRefill ts = true) :
    (RateLimiter.execSeq s ts).tokens ≤ s.tokens := by
  induction ts generalizing s with
  | nil => exact le_refl _
  | cons t ts ih =>
      rw [RateLimiter.gapsOk, Bool.and_eq_true, decide_eq_true_iff] at h
      obtain ⟨h1, h2⟩ := h
      rw [RateLimiter.execSeq]
      have hrec : RateLimiter.gapsOk (RateLimiter.execute s t).state.refillRate
          (RateLimiter.execute s t).state.lastRefill ts = true := by
        rw [execute_refillRate, execute_lastRefill]
        exact h2
      exact le_trans (ih _ hrec) (execute_tokens_mono s t h1)

/-- C2 (amended): when fewer than one token remains after the refill,
`execute` fails without invoking the wrapped operation and without touching
the token count, but the failure is not fully side-effect free: `lastRefill`
is advanced to the call time whenever any time has elapsed. -/
theorem rate_limited_rejects_without_invoking
    (s : RateLimiter.LimiterState) (now : Nat)
    (hrate : 0 < s.refillRate) (hmax : 0 < s.maxTokens)
    (hlow : (RateLimiter.refillState s now).tokens < 1) :
    (RateLimiter.execute s now).invoked = false ∧
    (RateLimiter.execute s now).rateLimitError.isSome = true ∧
    (RateLimiter.execute s now).state.tokens = s.tokens ∧
    (RateLimiter.execute s now).state.lastRefill =
      (if s.lastRefill < now then now else s.lastRefill) := by
  have hexec : RateLimiter.execute s now =
      { state := RateLimiter.refillState s now
        invoked := false
        rateLimitError :=
          some (((s.refillRate : Int) - ((now : Int) - (s.lastRefill : Int)) + 999) / 1000) } := by
    rw [RateLimiter.execute, if_pos hlow]
  rw [hexec]
  refine ⟨rfl, rfl, ?_, ?_⟩
  · rw [RateLimiter.refillState] at hlow ⊢
    by_cases hel : (0 : Int) < (now : Int) - (s.lastRefill : Int)
    · rw [if_pos hel] at hlow ⊢
      simp only at hlow ⊢
      omega
    · rw [if_neg hel]
  · rw [refillState_lastRefill]
    by_cases hl : s.lastRefill < now
    · rw [if_pos hl]
      omega
    · rw [if_neg hl]
      omega

/-- Witness for C2 (amended) on a drained limiter called 1000 ms after its
last refill. -/
theorem rate_limited_rejects_without_invoking_witness :
    (RateLimiter.execute limiterEmpty 1000).invoked = false ∧
    (RateLimiter.execute limiterEmpty 1000).rateLimitError.isSome = true ∧
    (RateLimiter.execute limiterEmpty 1000).state.tokens = limiterEmpty.tokens ∧
    (RateLimiter.execute limiterEmpty 1000).state.lastRefill =
      (if limiterEmpty.lastRefill < 1000 then 1000 else limiterEmpty.lastRefill) :=
  rate_limited_rejects_without_invoking limiterEmpty 1000 (by decide) (by decide) (by decide)

/-- Counterexample for C2 as stated: the failed call is not side-effect
free — on the drained limiter the rate-limited call moves `lastRefill` from
0 to 1000, so the state after the failure differs from the state before. -/
theorem rate_limited_call_mutates_state :
    (RateLimiter.refillState limiterEmpty 1000).tokens < 1 ∧
    (RateLimiter.execute limiterEmpty 1000).invoked = false ∧
    (RateLimiter.execute limiterEmpty 1000).rateLimitError = some 59 ∧
    (RateLimiter.execute limiterEmpty 1000).state.lastRefill = 1000 ∧
    limiterEmpty.lastRefill = 0 ∧
    (RateLimiter.execute limiterEmpty 1000).state ≠ limiterEmpty := by
  refine ⟨by decide, by decide, by decide, by decide, by decide, by decide⟩

/-- C10: the limiter advances `lastRefill` to the call time on every call
with positive elapsed time — even when the elapsed time is below one window
so that zero tokens are added — and consequently, across any sequence of
calls each made less than one refill window after the limiter's current
`lastRefill`, the token count never increases, no matter how much total
time has passed. -/
theorem lastRefill_advance_starves_bucket :
    (∀ (s : RateLimiter.LimiterState) (now : Nat),
      0 < (now : Int) - (s.lastRefill : Int) →
      (RateLimiter.execute s now).state.lastRefill = now) ∧
    (∀ (s : RateLimiter.LimiterState) (ts : List Nat),
      RateLimiter.gapsOk s.refillRate s.lastRefill ts = true →
      (RateLimiter.execSeq s ts).tokens ≤ s.tokens) := by
  constructor
  · intro s now h
    rw [execute_lastRefill]
    omega
  · intro s ts h
    exact execSeq_tokens_mono s ts h

/-- Witness for C10: a full 5-token limiter called at 59 s, 118 s and 177 s
(each gap below the 60 s window, total elapsed far beyond it) never gains a
token, and the single under-window call advanced `lastRefill`. -/
theorem lastRefill_advance_starves_bucket_witness :
    (RateLimiter.execute limiterEmpty 1000).state.lastRefill = 1000 ∧
    (RateLimiter.execSeq limiterFull [59000, 118000, 177000]).tokens ≤ limiterFull.tokens :=
  ⟨lastRefill_advance_starves_bucket.1 limiterEmpty 1000 (by decide),
   lastRefill_advance_starves_bucket.2 limiterFull [59000, 118000, 177000] (by decide)⟩

end NodePdfProcessor
